import Mathlib

/-!
Verification of the multi-source traffic-camera acquisition pipeline in
`src/services/trafficService.ts` (class `TrafficService`), together with the
pure coordinate converter `mercatorToLatLng` of the map component.

JavaScript strings are modelled as Lean `String` / `List Char`, JavaScript
numbers as `ℚ` (NaN is modelled as `Option.none` where it matters),
JavaScript exceptions as `Except Unit`, and the browser environment
(network, DOMParser, Math.random, Date) as explicit parameters.
-/

set_option maxRecDepth 8000

/-! ## Character-list string primitives

JavaScript's `startsWith`, `includes`, first-occurrence `replace`, and `trim`
are modelled on `List Char`.  `String.replace` in JS with a *string* pattern
replaces only the first occurrence, which is what `replaceFirst` does.
-/

/-- `isPrefixOfL p s` is `true` iff the character list `p` is a prefix of `s`.
Models JavaScript `s.startsWith(p)`. -/
def isPrefixOfL : List Char → List Char → Bool
  | [], _ => true
  | _ :: _, [] => false
  | a :: as, b :: bs => if a = b then isPrefixOfL as bs else false

/-- `containsSub p s` is `true` iff `p` occurs as a contiguous substring of
`s`.  Models JavaScript `s.includes(p)`. -/
def containsSub (pat : List Char) : List Char → Bool
  | [] => isPrefixOfL pat []
  | l@(_ :: t) => isPrefixOfL pat l || containsSub pat t

/-- Replace the first occurrence of `pat` in the list by `rep`; if `pat` does
not occur the list is returned unchanged.  Models JavaScript
`s.replace(pat, rep)` with a string pattern (first occurrence only). -/
def replaceFirst (pat rep : List Char) : List Char → List Char
  | [] => if pat = [] then rep else []
  | c :: t =>
    if isPrefixOfL pat (c :: t) then rep ++ (c :: t).drop pat.length
    else c :: replaceFirst pat rep t

/-- Strip whitespace from both ends of a character list; models JS `trim`. -/
def trimL (l : List Char) : List Char :=
  ((l.dropWhile Char.isWhitespace).reverse.dropWhile Char.isWhitespace).reverse

/-- JS `s.trim()` on `String`. -/
def jsTrim (s : String) : String := ⟨trimL s.data⟩

/-- JS `s.startsWith(p)` on `String`. -/
def jsStartsWith (s p : String) : Bool := isPrefixOfL p.data s.data

/-- JS `s.includes(p)` on `String`. -/
def jsIncludes (s p : String) : Bool := containsSub p.data s.data

/-- JS `a || b` on strings: the empty string is falsy. -/
def jsOrS (a b : String) : String := if a = "" then b else a

/-! ## Image URL normalizer

Embedding of `TrafficService.normalizeImageUrl` (trafficService.ts lines
261-279).  The constants are the string literals appearing in the source. -/

/-- `BASE_TRAFFIC_URL` of trafficService.ts. -/
def BASE_TRAFFIC_URL : String := "https://trafficnz.info"

/-- `"http"` as characters. -/
def httpL : List Char := "http".data

/-- `"http://"` as characters. -/
def httpSlashesL : List Char := "http://".data

/-- `"https://"` as characters. -/
def httpsSlashesL : List Char := "https://".data

/-- `"trafficnz.info"` as characters. -/
def tnzL : List Char := "trafficnz.info".data

/-- `"http://www.trafficnz.info"` as characters. -/
def patWwwL : List Char := "http://www.trafficnz.info".data

/-- `"http://trafficnz.info"` as characters. -/
def patBareL : List Char := "http://trafficnz.info".data

/-- `"https://www.trafficnz.info"` as characters. -/
def httpsWwwL : List Char := "https://www.trafficnz.info".data

/-- `"/camera/images/"` as characters. -/
def imagesDirL : List Char := "/camera/images/".data

/-- The regular-expression test `/^\d+\.jpg$/.test(url)` of the source: one
or more decimal digits followed by the literal `.jpg`, matching the whole
string. -/
def isDigitsJpg : List Char → Bool
  | [] => false
  | c :: t => c.isDigit && (decide (t = ".jpg".data) || isDigitsJpg t)

/-- The `absoluteUrl` resolution chain of `normalizeImageUrl`: an absolute
URL off the trafficnz host has its first `http://` upgraded; a root-relative
path gets the base URL; a bare `digits.jpg` name or any other relative string
gets the camera images directory; anything else is left unchanged. -/
def resolveUrl (url : List Char) : List Char :=
  if isPrefixOfL httpL url && !containsSub tnzL url then
    replaceFirst httpSlashesL httpsSlashesL url
  else if isPrefixOfL ['/'] url then BASE_TRAFFIC_URL.data ++ url
  else if isDigitsJpg url then BASE_TRAFFIC_URL.data ++ imagesDirL ++ url
  else if !isPrefixOfL httpL url then BASE_TRAFFIC_URL.data ++ imagesDirL ++ url
  else url

/-- Embedding of `normalizeImageUrl` on character lists, rule for rule: a
falsy (empty) input is returned as-is; `resolveUrl` computes `absoluteUrl`;
then the two lingering `http://` trafficnz hosts are unconditionally
rewritten to the canonical HTTPS host (first occurrence each, as JS
`String.replace` with a string pattern does). -/
def normalizeImageUrlL (url : List Char) : List Char :=
  if url = [] then []
  else replaceFirst patBareL httpsWwwL (replaceFirst patWwwL httpsWwwL (resolveUrl url))

/-- `TrafficService.normalizeImageUrl` on `String`. -/
def normalizeImageUrl (url : String) : String := ⟨normalizeImageUrlL url.data⟩

/-! ## JS number parsing

`parseFloat` on the coordinate strings of the legacy feed.  The result is
`Option ℚ`: `none` models `NaN` (no parsable leading number).  Handles leading
whitespace, an optional sign, integer and fraction digits and an optional
exponent whose digits, when absent, leave the exponent ignored as in JS
(`parseFloat("1e") = 1`).  The special values `Infinity`/`-Infinity` are not
representable in `ℚ` and are not modelled; no theorem below depends on them. -/

/-- Value of a list of decimal digit characters. -/
def digitsVal (ds : List Char) : ℕ :=
  ds.foldl (fun a c => 10 * a + (c.toNat - 48)) 0

/-- A signed decimal digit run (the exponent part of a JS float literal);
yields `0` when no digit follows, in which case the exponent is ignored. -/
def signedDigitsVal (cs : List Char) : ℤ :=
  match cs with
  | '-' :: t => if (t.takeWhile Char.isDigit).isEmpty then 0
                else -(digitsVal (t.takeWhile Char.isDigit) : ℤ)
  | '+' :: t => if (t.takeWhile Char.isDigit).isEmpty then 0
                else (digitsVal (t.takeWhile Char.isDigit) : ℤ)
  | t => if (t.takeWhile Char.isDigit).isEmpty then 0
         else (digitsVal (t.takeWhile Char.isDigit) : ℤ)

/-- The exponent marker `e`/`E` followed by a signed digit run. -/
def expVal (cs : List Char) : ℤ :=
  match cs with
  | 'e' :: t => signedDigitsVal t
  | 'E' :: t => signedDigitsVal t
  | _ => 0

/-- JS `parseFloat`: `none` models `NaN`. -/
def jsParseFloat (s : String) : Option ℚ :=
  let cs := s.data.dropWhile Char.isWhitespace
  let sgn : ℚ := match cs with | '-' :: _ => -1 | _ => 1
  let cs := match cs with | '-' :: t => t | '+' :: t => t | t => t
  let intDs := cs.takeWhile Char.isDigit
  let cs1 := cs.dropWhile Char.isDigit
  let fracDs := match cs1 with | '.' :: t => t.takeWhile Char.isDigit | _ => []
  let rest := match cs1 with | '.' :: t => t.dropWhile Char.isDigit | _ => cs1
  if intDs.isEmpty && fracDs.isEmpty then none
  else
    let mant : ℚ := (digitsVal intDs : ℚ) + (digitsVal fracDs : ℚ) / (10 ^ fracDs.length)
    some (sgn * mant * (10 : ℚ) ^ expVal rest)

/-! ## Data model

`types.ts` is not part of the sources; the record and enum shapes below are
modelled from the spec (§3) and from the object literals of
trafficService.ts. -/

/-- Modelled from the spec: the severity classification of `types.ts`
(ordered category low < medium < high < critical). -/
inductive Severity where
  | low | medium | high | critical
deriving DecidableEq, Repr

/-- Modelled from the spec: the trend classification of `types.ts`. -/
inductive Trend where
  | improving | stable | escalating
deriving DecidableEq, Repr

/-- Modelled from the spec: the `TrafficCamera` record of `types.ts`, with the
fields assigned by trafficService.ts.  `latitude`/`longitude` are `Option ℚ`
because the ArcGIS path can assign `coords[1]` of a too-short JS array, i.e.
`undefined` (`none`). -/
structure TrafficCamera where
  id : String
  name : String
  description : String
  imageUrl : String
  region : String
  latitude : Option ℚ
  longitude : Option ℚ
  direction : String
  journeyLegs : List String
  type : String
  status : String
  source : String
  severity : Severity
  trend : Trend
  confidence : ℕ
  lastUpdate : String
deriving DecidableEq, Repr

/-- The `severities` candidate array (lines 173 and 231 of the source). -/
def severities : List Severity :=
  [.low, .low, .low, .medium, .medium, .high]

/-- The `trends` candidate array (lines 174 and 232 of the source). -/
def trends : List Trend :=
  [.improving, .stable, .stable, .escalating]

/-- `severities[i]` for a draw `i = Math.floor(Math.random()*6) < 6`; the
default is unreachable since the index is in range. -/
def sevAt (i : Fin 6) : Severity := severities.getD i.val .low

/-- `trends[i]` for a draw `i = Math.floor(Math.random()*4) < 4`. -/
def trendAt (i : Fin 4) : Trend := trends.getD i.val .stable

/-! ## Static fallback dataset -/

/-- `FALLBACK_CAMERAS` (lines 12-67).  `now` is the module-initialisation
value of `new Date().toLocaleTimeString()`. -/
def FALLBACK_CAMERAS (now : String) : List TrafficCamera :=
  [ { id := "FB-AKL-01"
      name := "SH1: Oteha Valley Rd"
      description := "Northbound coverage - Backup Uplink"
      imageUrl := "https://www.trafficnz.info/camera/images/20.jpg"
      region := "Auckland"
      latitude := some (-36.723)
      longitude := some 174.706
      direction := "North"
      journeyLegs := ["Auckland - North"]
      type := "feed"
      status := "Operational"
      source := "Static Matrix Fallback"
      severity := .low
      trend := .stable
      confidence := 99
      lastUpdate := now },
    { id := "FB-AKL-02"
      name := "SH1: Harbour Bridge"
      description := "Clip-on lanes - Backup Uplink"
      imageUrl := "https://www.trafficnz.info/camera/images/24.jpg"
      region := "Auckland"
      latitude := some (-36.83)
      longitude := some 174.75
      direction := "South"
      journeyLegs := ["Auckland - Central"]
      type := "feed"
      status := "Operational"
      source := "Static Matrix Fallback"
      severity := .low
      trend := .stable
      confidence := 99
      lastUpdate := now },
    { id := "FB-WLG-01"
      name := "SH1: Terrace Tunnel"
      description := "Tunnel approach - Backup Uplink"
      imageUrl := "https://www.trafficnz.info/camera/images/423.jpg"
      region := "Wellington"
      latitude := some (-41.285)
      longitude := some 174.773
      direction := "North"
      journeyLegs := ["Wellington - City"]
      type := "feed"
      status := "Operational"
      source := "Static Matrix Fallback"
      severity := .low
      trend := .stable
      confidence := 99
      lastUpdate := now } ]

/-! ## ArcGIS (authoritative) parser

Embedding of `parseArcGisJson` (lines 170-200).  The GeoJSON payload is duck
typed in the source; optional JS properties are `Option`s, and reading a
property of `undefined` throws, modelled as `Except.error ()`.  Evaluation
order of the throwing accesses in the source: `feature.geometry.coordinates`
(line 178, throws iff `geometry` is undefined), `props.offline` (line 179,
throws iff `properties` is undefined), then `coords[1]` inside the object
literal (throws iff `coordinates` is undefined). -/

/-- Attribute map of an ArcGIS feature; upstream fields are duck-typed, each
modelled as an optional string. -/
structure ArcProps where
  id : Option String
  ObjectId : Option String
  name : Option String
  description : Option String
  imageurl : Option String
  thumburl : Option String
  region : Option String
  direction : Option String
  offline : Option String
  updatedate : Option String
deriving Repr

/-- Geometry of an ArcGIS feature; `coordinates` may be absent. -/
structure ArcGeometry where
  coordinates : Option (List ℚ)
deriving Repr

/-- One feature of the authoritative feature collection. -/
structure ArcFeature where
  properties : Option ArcProps
  geometry : Option ArcGeometry
deriving Repr

/-- The decoded ArcGIS response body; `features` may be absent. -/
structure GeoJson where
  features : Option (List ArcFeature)
deriving Repr

/-- The random draws one ArcGIS record consumes: `Math.floor(Math.random()*6)`
for severity, `*4` for trend, `*5` for confidence. -/
structure ArcDraws where
  sev : Fin 6
  trd : Fin 4
  conf : Fin 5

/-- JS `a || b` on two optional strings (`undefined` and `""` are falsy). -/
def jsOrOpt (a b : Option String) : Option String :=
  match a with
  | none => b
  | some s => if s = "" then b else some s

/-- JS template interpolation `${x}`: `undefined` prints as `"undefined"`. -/
def jsTemplate (x : Option String) : String := x.getD "undefined"

/-- JS `a || dflt` where the fallback is a (truthy) string literal. -/
def jsOrD (a : Option String) (dflt : String) : String :=
  match a with
  | none => dflt
  | some s => if s = "" then dflt else s

/-- Collapse an optional string to a plain one; `undefined` and `""` both hit
the falsy early return of `normalizeImageUrl`, so they are identified. -/
def jsStr (x : Option String) : String := x.getD ""

/-- The body of the `geoJson.features.map` callback.  `fmt` models
`new Date(props.updatedate || Date.now()).toLocaleTimeString(...)`, applied to
the truthy `updatedate` if present (`none` = `Date.now()`). -/
def parseArcFeature (f : ArcFeature) (d : ArcDraws) (fmt : Option String → String) :
    Except Unit TrafficCamera :=
  match f.geometry with
  | none => .error ()
  | some geom =>
    match f.properties with
    | none => .error ()
    | some props =>
      match geom.coordinates with
      | none => .error ()
      | some coords =>
        .ok
          { id := "arcgis-" ++ jsTemplate (jsOrOpt props.id props.ObjectId)
            name := jsOrD props.name "Surveillance Node"
            description := jsOrD props.description "Official NZTA Live Feed"
            imageUrl := normalizeImageUrl (jsStr (jsOrOpt props.imageurl props.thumburl))
            region := jsOrD props.region "NZ Sector"
            latitude := coords.get? 1
            longitude := coords.get? 0
            direction := jsOrD props.direction "N/A"
            journeyLegs := []
            type := "feed"
            status := if props.offline = some "true" then "Offline" else "Operational"
            source := "NZTA ArcGIS (Authoritative)"
            severity := sevAt d.sev
            trend := trendAt d.trd
            confidence := 95 + d.conf.val
            lastUpdate := fmt (jsOrOpt props.updatedate none) }

/-- `features.map(...)` where a thrown exception propagates: the features are
traversed in order and the first throw aborts the whole map. -/
def parseArcFeatures (d : ℕ → ArcDraws) (fmt : Option String → String) :
    ℕ → List ArcFeature → Except Unit (List TrafficCamera)
  | _, [] => .ok []
  | i, f :: rest =>
    match parseArcFeature f (d i) fmt with
    | .error e => .error e
    | .ok c =>
      match parseArcFeatures d fmt (i + 1) rest with
      | .error e => .error e
      | .ok cs => .ok (c :: cs)

/-- `TrafficService.parseArcGisJson`.  `none` input models a falsy decoded
body (`!geoJson`); a body without a `features` array returns `[]`. -/
def parseArcGisJson (g : Option GeoJson) (d : ℕ → ArcDraws)
    (fmt : Option String → String) : Except Unit (List TrafficCamera) :=
  match g with
  | none => .ok []
  | some gj =>
    match gj.features with
    | none => .ok []
    | some feats => parseArcFeatures d fmt 0 feats

/-! ## Legacy XML parser

Embedding of `parseTrafficXml` (lines 206-256).  `DOMParser` and
`querySelectorAll` are browser APIs, modelled abstractly: a parse either
reports a `parsererror` or yields the list of nodes matched by the selector
`"trafficCamera, camera"`; per node, each `querySelector(...)?.textContent`
the code reads is an optional string field. -/

/-- One matched camera node: the text content (if any) of each of the child
selectors the source queries.  `locLatitude` is `"location > latitude"`,
`latitude` is the top-level `"latitude"`, and so on. -/
structure XmlNode where
  locLatitude : Option String
  locLongitude : Option String
  latitude : Option String
  longitude : Option String
  id : Option String
  name : Option String
  description : Option String
  imageUrl : Option String
  url : Option String
  region : Option String
  direction : Option String
  status : Option String
deriving Repr

/-- Result of `new DOMParser().parseFromString(s, "text/xml")` followed by the
`parsererror` check and `querySelectorAll("trafficCamera, camera")`. -/
inductive XmlParseResult where
  | parseError
  | doc (nodes : List XmlNode)

/-- The random draws one XML record can consume, plus the synthesized id
suffix `Math.random().toString(36).substr(2, 5)`. -/
structure XmlDraws where
  sev : Fin 6
  trd : Fin 4
  conf : Fin 19
  suffix : String

/-- `getVal` of the source: `node.querySelector(s)?.textContent?.trim() || ""`. -/
def getVal (f : Option String) : String := jsTrim (jsStr f)

/-- The per-node body of the `cameraNodes.forEach` loop: parse coordinates
(nested `location >` path preferred, then the top-level tag, then `"0"`), and
push a record only when both are truthy (non-`NaN` and non-zero). -/
def parseXmlNode (node : XmlNode) (d : XmlDraws) (now : String) :
    Option TrafficCamera :=
  match jsParseFloat (jsOrS (getVal node.locLatitude) (jsOrS (getVal node.latitude) "0")),
        jsParseFloat (jsOrS (getVal node.locLongitude) (jsOrS (getVal node.longitude) "0")) with
  | some lat, some lng =>
    if lat = 0 ∨ lng = 0 then none
    else
      some
        { id := jsOrS (getVal node.id) ("node-" ++ d.suffix)
          name := jsOrS (getVal node.name) "Surveillance Node"
          description := jsOrS (getVal node.description) "Live matrix uplink"
          imageUrl := normalizeImageUrl (jsOrS (getVal node.imageUrl) (getVal node.url))
          region := jsOrS (getVal node.region) "NZ Sector"
          latitude := some lat
          longitude := some lng
          direction := jsOrS (getVal node.direction) "N/A"
          journeyLegs := []
          type := "feed"
          status := jsOrS (getVal node.status) "Operational"
          source := "TrafficNZ REST v4"
          severity :=
            if jsIncludes (jsOrS (getVal node.status) "Operational") "Construction"
            then .medium else sevAt d.sev
          trend := trendAt d.trd
          confidence := 80 + d.conf.val
          lastUpdate := now }
  | _, _ => none

/-- `TrafficService.parseTrafficXml` on an abstract DOM parse result, with the
random draws indexed by node position. -/
def parseTrafficXml (x : XmlParseResult) (draws : ℕ → XmlDraws) (now : String) :
    List TrafficCamera :=
  match x with
  | .parseError => []
  | .doc nodes => nodes.enum.filterMap fun p => parseXmlNode p.2 (draws p.1) now

/-! ## Acquisition orchestrator

Embedding of `fetchLiveCameras` (lines 106-164).  The network, the DOM
parser, the random source and the clock are supplied by an `Env`; a thrown
`fetch`/`json()` is an `Except.error`, which the source catches. -/

/-- Relay proxy descriptor (`ProxyConfig`). -/
structure ProxyConfig where
  url : String
  type : String
deriving DecidableEq, Repr

/-- The `PROXIES` pool (lines 78-83), in declared order. -/
def PROXIES : List ProxyConfig :=
  [ { url := "https://api.allorigins.win/get?url=", type := "json" },
    { url := "https://corsproxy.io/?", type := "text" },
    { url := "https://api.codetabs.com/v1/proxy?url=", type := "text" },
    { url := "https://thingproxy.freeboard.io/fetch/", type := "text" } ]

/-- Outcome of the ArcGIS `fetchWithTimeout` + `res.json()`:
HTTP status flag and the decoded body (whose decoding itself can throw). -/
structure ArcResponse where
  ok : Bool
  json : Except Unit (Option GeoJson)

/-- Outcome of one relay request, after `fetchWithTimeout` and body
extraction: a thrown fetch/timeout, a non-OK status, a throwing
`json()`/`text()`, or an extracted payload (`none` models an `undefined`
`data.contents` on a JSON-enveloped relay). -/
inductive RelayOutcome where
  | fetchErr
  | httpErr (status : ℕ)
  | extractErr
  | body (xmlText : Option String)

/-- The upstream world one `fetchLiveCameras()` call observes: the
authoritative response, the outcome of the request through each relay (by
position in `PROXIES`; the per-relay target URL construction only influences
this outcome), the DOM parser, the random draws, and the clock. -/
structure Env where
  arc : Except Unit ArcResponse
  relay : ℕ → RelayOutcome
  domParse : String → XmlParseResult
  arcDraws : ℕ → ArcDraws
  xmlDraws : ℕ → XmlDraws
  fmtArcTime : Option String → String
  now : String

/-- The payload rejection check of line 147: empty body, or a body whose
trimmed text starts with `<!DOCTYPE html` or `<html` (an HTML error page
served by the relay itself). -/
def invalidPayload (s : String) : Bool :=
  decide (s = "") || jsStartsWith (jsTrim s) "<!DOCTYPE html" ||
    jsStartsWith (jsTrim s) "<html"

/-- The ArcGIS attempt (lines 110-122): `some parsed` when the try block
reaches `return parsed`, `none` when any failure falls through to the relay
pool (thrown fetch, non-OK status, throwing `json()`, throwing parse, or zero
parsed records). -/
def arcAttempt (env : Env) : Option (List TrafficCamera) :=
  match env.arc with
  | .error _ => none
  | .ok res =>
    if res.ok then
      match res.json with
      | .error _ => none
      | .ok data =>
        match parseArcGisJson data env.arcDraws env.fmtArcTime with
        | .error _ => none
        | .ok parsed => if 0 < parsed.length then some parsed else none
    else none

/-- What the loop body for the relay at position `i` yields: `some parsed`
when it reaches `return parsed`, `none` when it `continue`s (non-OK status,
thrown fetch or extraction, falsy or HTML payload, or zero parsed records). -/
def relayYield (env : Env) (i : ℕ) : Option (List TrafficCamera) :=
  match env.relay i with
  | .fetchErr => none
  | .httpErr _ => none
  | .extractErr => none
  | .body none => none
  | .body (some s) =>
    if invalidPayload s then none
    else
      let parsed := parseTrafficXml (env.domParse s) env.xmlDraws env.now
      if 0 < parsed.length then some parsed else none

/-- The `for (const proxy of PROXIES)` loop from position `i` on, ending in
the emergency fallback return (lines 125-163). -/
def relayFromIndex (env : Env) : ℕ → List ProxyConfig → List TrafficCamera
  | _, [] => FALLBACK_CAMERAS env.now
  | i, _ :: rest =>
    match relayYield env i with
    | some r => r
    | none => relayFromIndex env (i + 1) rest

/-- `TrafficService.fetchLiveCameras`: ArcGIS first, then the relay pool,
then the static fallback.  Total: every upstream failure is absorbed. -/
def fetchLiveCameras (env : Env) : List TrafficCamera :=
  match arcAttempt env with
  | some r => r
  | none => relayFromIndex env 0 PROXIES

/-! ## Coordinate normalizer

Embedding of `mercatorToLatLng` (map component, lines 392-397) over the real
numbers: the idealized semantics of the JS doubles and `Math` functions. -/

/-- `mercatorToLatLng(x, y)`: inverse spherical-Mercator conversion,
returning `(lat, lng)` in degrees, Earth radius 6378137 m. -/
noncomputable def mercatorToLatLng (x y : ℝ) : ℝ × ℝ :=
  ((2 * Real.arctan (Real.exp (y / 6378137)) - Real.pi / 2) * (180 / Real.pi),
   (x / 6378137) * (180 / Real.pi))

/-- Modelled from the spec: the forward spherical-Mercator projection with
Earth radius 6378137 m (the projection `mercatorToLatLng` is claimed to
invert).  Takes geographic degrees `(lat, lng)` to projected meters
`(x, y) = (R·λ, R·ln tan(π/4 + φ/2))` with `φ, λ` in radians. -/
noncomputable def mercatorForward (lat lng : ℝ) : ℝ × ℝ :=
  (6378137 * (lng * Real.pi / 180),
   6378137 * Real.log (Real.tan (Real.pi / 4 + lat * Real.pi / 360)))

/-! ## Concrete inputs used by witnesses and counterexamples -/

/-- A legacy node under construction, with nested coordinates. -/
def conNode : XmlNode :=
  { locLatitude := some "-36.8"
    locLongitude := some "174.7"
    latitude := none
    longitude := none
    id := some "cam1"
    name := none
    description := none
    imageUrl := none
    url := none
    region := none
    direction := none
    status := some "Road Construction" }

/-- A fixed draw assignment (deterministic random source). -/
def conDraws : XmlDraws := { sev := 0, trd := 0, conf := 0, suffix := "abcde" }

/-- The record `parseXmlNode` emits for `conNode` under `conDraws`. -/
def conRec : TrafficCamera :=
  { id := "cam1"
    name := "Surveillance Node"
    description := "Live matrix uplink"
    imageUrl := ""
    region := "NZ Sector"
    latitude := some (-36.8)
    longitude := some 174.7
    direction := "N/A"
    journeyLegs := []
    type := "feed"
    status := "Road Construction"
    source := "TrafficNZ REST v4"
    severity := .medium
    trend := .improving
    confidence := 80
    lastUpdate := "12:00" }

/-- A legacy node with coordinates but no `id` child: the identifier is
synthesized from the random suffix. -/
def noIdNode : XmlNode :=
  { locLatitude := some "-36.8"
    locLongitude := some "174.7"
    latitude := none
    longitude := none
    id := none
    name := none
    description := none
    imageUrl := none
    url := none
    region := none
    direction := none
    status := none }

/-- An environment in which the authoritative fetch throws and every relay
fetch throws: total upstream collapse. -/
def deadEnv : Env :=
  { arc := .error ()
    relay := fun _ => .fetchErr
    domParse := fun _ => .parseError
    arcDraws := fun _ => { sev := 0, trd := 0, conf := 0 }
    xmlDraws := fun _ => { sev := 0, trd := 0, conf := 0, suffix := "" }
    fmtArcTime := fun _ => "00:00"
    now := "00:00" }

/-- An HTML error page served by a relay. -/
def htmlPayload : String := "<html><body>503 Service Unavailable</body></html>"

/-- An environment whose first relay answers with an HTML error page. -/
def htmlEnv : Env :=
  { arc := .error ()
    relay := fun i => if i = 0 then .body (some htmlPayload) else .fetchErr
    domParse := fun _ => .parseError
    arcDraws := fun _ => { sev := 0, trd := 0, conf := 0 }
    xmlDraws := fun _ => { sev := 0, trd := 0, conf := 0, suffix := "" }
    fmtArcTime := fun _ => "00:00"
    now := "00:00" }

/-- An ArcGIS feature with no geometry at all. -/
def badFeature : ArcFeature := { properties := none, geometry := none }

/-- A feature collection containing only `badFeature`. -/
def badGeo : GeoJson := { features := some [badFeature] }

/-- An environment whose authoritative response is OK and decodes to
`badGeo`: the parse of the batch throws. -/
def badArcEnv : Env :=
  { arc := .ok { ok := true, json := .ok (some badGeo) }
    relay := fun _ => .fetchErr
    domParse := fun _ => .parseError
    arcDraws := fun _ => { sev := 0, trd := 0, conf := 0 }
    xmlDraws := fun _ => { sev := 0, trd := 0, conf := 0, suffix := "" }
    fmtArcTime := fun _ => "00:00"
    now := "00:00" }

/-- An attribute map with every optional attribute absent. -/
def emptyProps : ArcProps :=
  { id := none, ObjectId := none, name := none, description := none
    imageurl := none, thumburl := none, region := none, direction := none
    offline := none, updatedate := none }

/-- An ArcGIS feature whose geometry carries the coordinates `[0, 0]`. -/
def zeroFeature : ArcFeature :=
  { properties := some emptyProps, geometry := some { coordinates := some [0, 0] } }

/-- The record `parseArcGisJson` emits for `zeroFeature`: latitude and
longitude are both `0`. -/
def zeroRec : TrafficCamera :=
  { id := "arcgis-undefined"
    name := "Surveillance Node"
    description := "Official NZTA Live Feed"
    imageUrl := ""
    region := "NZ Sector"
    latitude := some 0
    longitude := some 0
    direction := "N/A"
    journeyLegs := []
    type := "feed"
    status := "Operational"
    source := "NZTA ArcGIS (Authoritative)"
    severity := .low
    trend := .improving
    confidence := 95
    lastUpdate := "00:00" }

theorem sanity_norm_digits :
    normalizeImageUrl "20.jpg" = "https://trafficnz.info/camera/images/20.jpg" := by
  decide

theorem sanity_norm_http :
    normalizeImageUrl "http://example.com/a" = "https://example.com/a" := by
  decide

theorem sanity_norm_bare_host :
    normalizeImageUrl "http://trafficnz.info/a" = "https://www.trafficnz.info/a" := by
  decide

/-! ## Lemmas about the string primitives -/

theorem isPrefixOfL_append_self (p t : List Char) : isPrefixOfL p (p ++ t) = true := by
  induction p with
  | nil => rfl
  | cons a as ih => simp [isPrefixOfL, ih]

theorem exists_append_of_isPrefixOfL {p s : List Char}
    (h : isPrefixOfL p s = true) : ∃ t, s = p ++ t := by
  induction p generalizing s with
  | nil => exact ⟨s, rfl⟩
  | cons a as ih =>
    cases s with
    | nil => simp [isPrefixOfL] at h
    | cons b bs =>
      by_cases hab : a = b
      · subst hab
        rw [isPrefixOfL, if_pos rfl] at h
        obtain ⟨t, rfl⟩ := ih h
        exact ⟨t, rfl⟩
      · rw [isPrefixOfL, if_neg hab] at h
        simp at h

theorem isPrefixOfL_append_right {q a : List Char} (h : isPrefixOfL q a = true)
    (x : List Char) : isPrefixOfL q (a ++ x) = true := by
  obtain ⟨t, rfl⟩ := exists_append_of_isPrefixOfL h
  rw [List.append_assoc]
  exact isPrefixOfL_append_self q (t ++ x)

theorem containsSub_mono {p q s : List Char} (hpq : isPrefixOfL p q = true)
    (h : containsSub q s = true) : containsSub p s = true := by
  induction s with
  | nil =>
    rw [containsSub] at h ⊢
    obtain ⟨t, ht⟩ := exists_append_of_isPrefixOfL h
    obtain ⟨u, hu⟩ := exists_append_of_isPrefixOfL hpq
    rcases List.append_eq_nil.mp ht.symm with ⟨hq, -⟩
    subst hq
    rcases List.append_eq_nil.mp hu.symm with ⟨hp, -⟩
    subst hp
    rfl
  | cons c t ih =>
    rw [containsSub, Bool.or_eq_true] at h ⊢
    rcases h with h | h
    · left
      obtain ⟨u, rfl⟩ := exists_append_of_isPrefixOfL hpq
      obtain ⟨v, hv⟩ := exists_append_of_isPrefixOfL h
      rw [hv, List.append_assoc]
      exact isPrefixOfL_append_self p (u ++ v)
    · exact Or.inr (ih h)

theorem replaceFirst_of_not_contains {pat s : List Char}
    (h : containsSub pat s = false) (rep : List Char) :
    replaceFirst pat rep s = s := by
  induction s with
  | nil =>
    rw [containsSub] at h
    have hpat : pat ≠ [] := by
      intro hp; subst hp; simp [isPrefixOfL] at h
    rw [replaceFirst, if_neg hpat]
  | cons c t ih =>
    rw [containsSub, Bool.or_eq_false_iff] at h
    rw [replaceFirst, if_neg (by simp [h.1]), ih h.2]

/-- `httpL` in constructor form. -/
theorem httpL_eq : httpL = ['h', 't', 't', 'p'] := rfl

/-- `httpsSlashesL` in constructor form. -/
theorem httpsSlashesL_eq : httpsSlashesL = ['h', 't', 't', 'p', 's', ':', '/', '/'] := rfl

/-- First-occurrence replacement preserves the prefix `"http"` whenever the
pattern and the replacement both start with `"http"`: a match at the very
start substitutes a replacement that itself starts with `"http"`, and a match
further in cannot begin inside the first four characters (`t`, `t`, `p` differ
from the pattern head `h`). -/
theorem replaceFirst_preserves_prefix_http {pat rep s : List Char}
    (hp : isPrefixOfL httpL pat = true) (hr : isPrefixOfL httpL rep = true)
    (hs : isPrefixOfL httpL s = true) :
    isPrefixOfL httpL (replaceFirst pat rep s) = true := by
  obtain ⟨t, rfl⟩ := exists_append_of_isPrefixOfL hs
  by_cases hm : isPrefixOfL pat (httpL ++ t) = true
  · rw [httpL_eq, List.cons_append, replaceFirst, if_pos (by rw [← List.cons_append, ← httpL_eq]; exact hm)]
    exact isPrefixOfL_append_right hr _
  · obtain ⟨p', rfl⟩ := exists_append_of_isPrefixOfL hp
    rw [httpL_eq] at hm ⊢
    simp only [List.cons_append, List.nil_append] at hm ⊢
    rw [replaceFirst, if_neg hm]
    simp [replaceFirst, isPrefixOfL]

/-- First-occurrence replacement preserves the prefix `"https://"` whenever
the pattern starts with `"http"` and the replacement starts with
`"https://"`; the characters at offsets 1..7 of `"https://"` all differ from
the pattern head `h`, and a full match at offset 0 substitutes a replacement
with the right prefix. -/
theorem replaceFirst_preserves_prefix_https {pat rep s : List Char}
    (hp : isPrefixOfL httpL pat = true) (hr : isPrefixOfL httpsSlashesL rep = true)
    (hs : isPrefixOfL httpsSlashesL s = true) :
    isPrefixOfL httpsSlashesL (replaceFirst pat rep s) = true := by
  obtain ⟨t, rfl⟩ := exists_append_of_isPrefixOfL hs
  by_cases hm : isPrefixOfL pat (httpsSlashesL ++ t) = true
  · rw [httpsSlashesL_eq, List.cons_append, replaceFirst,
      if_pos (by rw [← List.cons_append, ← httpsSlashesL_eq]; exact hm)]
    exact isPrefixOfL_append_right hr _
  · obtain ⟨p', rfl⟩ := exists_append_of_isPrefixOfL hp
    rw [httpL_eq] at hm ⊢
    rw [httpsSlashesL_eq] at hm ⊢
    simp only [List.cons_append, List.nil_append] at hm ⊢
    rw [replaceFirst, if_neg hm]
    simp [replaceFirst, isPrefixOfL]

/-- Whatever branch resolves it, `absoluteUrl` starts with `"http"`. -/
theorem resolveUrl_prefix_http (u : List Char) :
    isPrefixOfL httpL (resolveUrl u) = true := by
  rw [resolveUrl]
  by_cases h1 : (isPrefixOfL httpL u && !containsSub tnzL u) = true
  · rw [if_pos h1]
    have h1' : isPrefixOfL httpL u = true := by
      simp only [Bool.and_eq_true] at h1
      exact h1.1
    exact replaceFirst_preserves_prefix_http (by decide) (by decide) h1'
  · rw [if_neg h1]
    by_cases h2 : isPrefixOfL ['/'] u = true
    · rw [if_pos h2]
      exact isPrefixOfL_append_right (by decide) u
    · rw [if_neg h2]
      by_cases h3 : isDigitsJpg u = true
      · rw [if_pos h3]
        exact isPrefixOfL_append_right (by decide) _
      · rw [if_neg h3]
        by_cases h4 : (!isPrefixOfL httpL u) = true
        · rw [if_pos h4]
          exact isPrefixOfL_append_right (by decide) _
        · rw [if_neg h4]
          simpa using h4

/-- Every non-empty normalized URL starts with `"http"`. -/
theorem normalizeImageUrlL_prefix_http {u : List Char} (hu : u ≠ []) :
    isPrefixOfL httpL (normalizeImageUrlL u) = true := by
  rw [normalizeImageUrlL, if_neg hu]
  exact replaceFirst_preserves_prefix_http (by decide) (by decide)
    (replaceFirst_preserves_prefix_http (by decide) (by decide)
      (resolveUrl_prefix_http u))

/-- Core of the idempotence analysis: a string that starts with `"http"` and
contains no occurrence of `"http://"` is a fixed point of the normalizer. -/
theorem normalizeImageUrlL_fixed {v : List Char}
    (hv : isPrefixOfL httpL v = true)
    (h : containsSub httpSlashesL v = false) :
    normalizeImageUrlL v = v := by
  have hPatWww : containsSub patWwwL v = false := by
    cases hc : containsSub patWwwL v with
    | false => rfl
    | true =>
      rw [containsSub_mono (p := httpSlashesL) (by decide) hc] at h
      cases h
  have hPatBare : containsSub patBareL v = false := by
    cases hc : containsSub patBareL v with
    | false => rfl
    | true =>
      rw [containsSub_mono (p := httpSlashesL) (by decide) hc] at h
      cases h
  obtain ⟨t, rfl⟩ := exists_append_of_isPrefixOfL hv
  have hne : httpL ++ t ≠ [] := by rw [httpL_eq]; simp
  have hDigit : ('h' : Char).isDigit = false := by decide
  have hres : resolveUrl (httpL ++ t) = httpL ++ t := by
    rw [resolveUrl]
    by_cases hc : containsSub tnzL (httpL ++ t) = true
    · rw [if_neg (by simp [hc])]
      rw [if_neg (by rw [httpL_eq]; simp [isPrefixOfL])]
      rw [if_neg (by rw [httpL_eq]; simp [isDigitsJpg, hDigit])]
      rw [if_neg (by simp [isPrefixOfL_append_self])]
    · have hc' : containsSub tnzL (httpL ++ t) = false := by
        cases hx : containsSub tnzL (httpL ++ t) with
        | false => rfl
        | true => exact absurd hx hc
      rw [if_pos (by simp [isPrefixOfL_append_self, hc'])]
      exact replaceFirst_of_not_contains h _
  rw [normalizeImageUrlL, if_neg hne, hres,
    replaceFirst_of_not_contains hPatWww, replaceFirst_of_not_contains hPatBare]

theorem normalizeImageUrlL_idem {l : List Char}
    (h : containsSub httpSlashesL (normalizeImageUrlL l) = false) :
    normalizeImageUrlL (normalizeImageUrlL l) = normalizeImageUrlL l := by
  by_cases hl : l = []
  · subst hl; rfl
  · exact normalizeImageUrlL_fixed (normalizeImageUrlL_prefix_http hl) h

/-- **C6 (counterexample)**: image URL normalization is not idempotent.  The
input `"http://a/?q=http://b"` normalizes to `"https://a/?q=http://b"` (only
the first `http://` is replaced), and a second pass rewrites the embedded
occurrence, producing `"https://a/?q=https://b"`. -/
theorem normalizeImageUrl_not_idempotent :
    normalizeImageUrl (normalizeImageUrl "http://a/?q=http://b") ≠
      normalizeImageUrl "http://a/?q=http://b" := by
  decide

/-- **C6 (amended)**: normalization is idempotent on every input whose
normalized form contains no residual occurrence of `"http://"`; a second pass
can differ only by upgrading such a leftover embedded occurrence. -/
theorem normalizeImageUrl_idem_of_no_residual_http (u : String)
    (h : containsSub httpSlashesL (normalizeImageUrl u).data = false) :
    normalizeImageUrl (normalizeImageUrl u) = normalizeImageUrl u :=
  congrArg String.mk (normalizeImageUrlL_idem h)

/-- Witness for the amended C6 at the concrete input `"/x"`. -/
theorem normalizeImageUrl_idem_witness :
    containsSub httpSlashesL (normalizeImageUrl "/x").data = false ∧
      normalizeImageUrl (normalizeImageUrl "/x") = normalizeImageUrl "/x" :=
  ⟨by decide, normalizeImageUrl_idem_of_no_residual_http "/x" (by decide)⟩

/-- **C7 (counterexample)**: `normalizeImageUrl` does not always produce an
absolute HTTPS URL.  The input `"httpx"` starts with `http` and is off the
trafficnz host, so rule (a) applies, but it contains no `http://` to upgrade:
the output is `"httpx"` verbatim, which has no scheme at all; likewise an
empty upstream reference normalizes to the empty string. -/
theorem normalizeImageUrl_not_always_https :
    normalizeImageUrl "httpx" = "httpx" ∧
      jsStartsWith (normalizeImageUrl "httpx") "https://" = false ∧
      normalizeImageUrl "" = "" := by
  decide

/-- **C7 (amended)**: for every non-empty upstream image reference that does
not start with `"http"` (a root-relative path, a bare `digits.jpg` name, or
any other relative string), the normalized URL is absolute HTTPS: it starts
with `"https://"`. -/
theorem normalizeImageUrl_https_of_relative (u : String) (h0 : u ≠ "")
    (h1 : jsStartsWith u "http" = false) :
    jsStartsWith (normalizeImageUrl u) "https://" = true := by
  have hd : u.data ≠ [] := by
    intro hnil
    apply h0
    cases u with
    | mk data =>
      simp only at hnil
      subst hnil
      rfl
  have h1' : isPrefixOfL httpL u.data = false := h1
  show isPrefixOfL httpsSlashesL (normalizeImageUrlL u.data) = true
  rw [normalizeImageUrlL, if_neg hd]
  apply replaceFirst_preserves_prefix_https (by decide) (by decide)
  apply replaceFirst_preserves_prefix_https (by decide) (by decide)
  rw [resolveUrl, if_neg (by simp [h1'])]
  by_cases h2 : isPrefixOfL ['/'] u.data = true
  · rw [if_pos h2]
    exact isPrefixOfL_append_right (by decide) _
  · rw [if_neg h2]
    by_cases h3 : isDigitsJpg u.data = true
    · rw [if_pos h3]
      exact isPrefixOfL_append_right (by decide) _
    · rw [if_neg h3, if_pos (by simp [h1'])]
      exact isPrefixOfL_append_right (by decide) _

/-- Witness for the amended C7 at the concrete input `"12.jpg"`. -/
theorem normalizeImageUrl_https_witness :
    ("12.jpg" : String) ≠ "" ∧ jsStartsWith "12.jpg" "http" = false ∧
      jsStartsWith (normalizeImageUrl "12.jpg") "https://" = true :=
  ⟨by decide, by decide,
    normalizeImageUrl_https_of_relative "12.jpg" (by decide) (by decide)⟩

/-! ## Orchestrator theorems -/

theorem arcAttempt_pos {env : Env} {r : List TrafficCamera}
    (h : arcAttempt env = some r) : 0 < r.length := by
  unfold arcAttempt at h
  split at h
  · exact absurd h (by simp)
  · split at h
    · split at h
      · exact absurd h (by simp)
      · split at h
        · exact absurd h (by simp)
        · split at h
          · rename_i hlen
            rw [Option.some.injEq] at h
            subst h
            exact hlen
          · exact absurd h (by simp)
    · exact absurd h (by simp)

theorem relayYield_pos {env : Env} {i : ℕ} {r : List TrafficCamera}
    (h : relayYield env i = some r) : 0 < r.length := by
  unfold relayYield at h
  split at h
  · exact absurd h (by simp)
  · exact absurd h (by simp)
  · exact absurd h (by simp)
  · exact absurd h (by simp)
  · split at h
    · exact absurd h (by simp)
    · dsimp only at h
      split at h
      · rename_i hlen
        rw [Option.some.injEq] at h
        subst h
        exact hlen
      · exact absurd h (by simp)

theorem relayFromIndex_pos (env : Env) :
    ∀ (l : List ProxyConfig) (i : ℕ), 0 < (relayFromIndex env i l).length := by
  intro l
  induction l with
  | nil =>
    intro i
    rw [relayFromIndex]
    simp [FALLBACK_CAMERAS]
  | cons p rest ih =>
    intro i
    rw [relayFromIndex]
    cases hy : relayYield env i with
    | none => exact ih (i + 1)
    | some r => exact relayYield_pos hy

/-- **C1**: whatever the upstream world does — a thrown or non-OK
authoritative fetch, a throwing `json()`, a throwing batch parse, thrown or
non-OK or throwing relay requests, HTML or empty relay payloads, unparseable
markup, zero parsed records — `fetchLiveCameras` returns a non-empty record
list.  The embedding is a total function into `List TrafficCamera`: every
upstream exception (modelled by `Except.error` in `Env`) is absorbed, so no
exception reaches the caller. -/
theorem fetchLiveCameras_nonempty (env : Env) :
    0 < (fetchLiveCameras env).length := by
  rw [fetchLiveCameras]
  cases ha : arcAttempt env with
  | none => exact relayFromIndex_pos env PROXIES 0
  | some r => exact arcAttempt_pos ha

/-- **C3**: when the authoritative attempt yields nothing and every relay of
the pool yields nothing, the orchestrator returns exactly the 3 static
fallback records, whose identifiers are `FB-AKL-01`, `FB-AKL-02`,
`FB-WLG-01` in that order. -/
theorem fetchLiveCameras_fallback (env : Env)
    (h1 : arcAttempt env = none)
    (h2 : ∀ i, i < PROXIES.length → relayYield env i = none) :
    fetchLiveCameras env = FALLBACK_CAMERAS env.now ∧
      (FALLBACK_CAMERAS env.now).map (fun c => c.id) =
        ["FB-AKL-01", "FB-AKL-02", "FB-WLG-01"] := by
  refine ⟨?_, rfl⟩
  rw [fetchLiveCameras, h1]
  show relayFromIndex env 0 PROXIES = _
  have e0 := h2 0 (by decide)
  have e1 := h2 1 (by decide)
  have e2 := h2 2 (by decide)
  have e3 := h2 3 (by decide)
  simp only [PROXIES, relayFromIndex, e0, e1, e2, e3]

/-- Witness for C3: under total upstream collapse (`deadEnv`) the result is
the fallback dataset. -/
theorem fetchLiveCameras_fallback_witness :
    fetchLiveCameras deadEnv = FALLBACK_CAMERAS "00:00" ∧
      (FALLBACK_CAMERAS "00:00").map (fun c => c.id) =
        ["FB-AKL-01", "FB-AKL-02", "FB-WLG-01"] :=
  fetchLiveCameras_fallback deadEnv rfl (fun _ _ => rfl)

/-- **C4**: a relay whose extracted body is empty or recognizably an HTML
error page (trimmed text starting with `<!DOCTYPE html` or `<html`) is
skipped: the loop advances to the next relay without parsing the body and
without throwing (the step is an equation between total values). -/
theorem relay_skips_invalid_payload (env : Env) (i : ℕ) (p : ProxyConfig)
    (rest : List ProxyConfig) (s : String)
    (hb : env.relay i = .body (some s))
    (hs : invalidPayload s = true) :
    relayFromIndex env i (p :: rest) = relayFromIndex env (i + 1) rest := by
  have hy : relayYield env i = none := by
    unfold relayYield
    rw [hb]
    simp [hs]
  rw [relayFromIndex, hy]

/-- Witness for C4: the first relay of `htmlEnv` answers an HTML page, and
the loop step advances to the next relay. -/
theorem relay_skips_invalid_witness :
    htmlEnv.relay 0 = .body (some htmlPayload) ∧ invalidPayload htmlPayload = true ∧
      relayFromIndex htmlEnv 0
          [{ url := "https://api.allorigins.win/get?url=", type := "json" }] =
        relayFromIndex htmlEnv 1 [] :=
  ⟨rfl, by decide,
    relay_skips_invalid_payload htmlEnv 0
      { url := "https://api.allorigins.win/get?url=", type := "json" } [] htmlPayload
      rfl (by decide)⟩

/-! ## Parser theorems -/

theorem containsSub_nil {pat : List Char} (hp : pat ≠ []) :
    containsSub pat [] = false := by
  cases pat with
  | nil => exact absurd rfl hp
  | cons c t => rfl

theorem sevAt_mem : ∀ i : Fin 6, sevAt i ∈ severities := by decide

/-- **C5**: for every emitted legacy record, a status text containing
`"Construction"` forces severity `medium` independently of the draw, and
otherwise the severity is the drawn element of the fixed candidate list
`severities`. -/
theorem construction_forces_medium (node : XmlNode) (d : XmlDraws) (now : String)
    (r : TrafficCamera) (h : parseXmlNode node d now = some r) :
    (jsIncludes (getVal node.status) "Construction" = true → r.severity = .medium) ∧
      (jsIncludes (getVal node.status) "Construction" = false →
        r.severity = sevAt d.sev ∧ sevAt d.sev ∈ severities) := by
  unfold parseXmlNode at h
  split at h
  · split at h
    · exact absurd h (by simp)
    · rw [Option.some.injEq] at h
      subst h
      constructor
      · intro hc
        have hne : getVal node.status ≠ "" := by
          intro h0
          rw [h0] at hc
          rw [show jsIncludes "" "Construction" = false from rfl] at hc
          cases hc
        show (if jsIncludes (jsOrS (getVal node.status) "Operational") "Construction" = true
            then Severity.medium else sevAt d.sev) = Severity.medium
        rw [jsOrS, if_neg hne, if_pos hc]
      · intro hc
        refine ⟨?_, sevAt_mem d.sev⟩
        show (if jsIncludes (jsOrS (getVal node.status) "Operational") "Construction" = true
            then Severity.medium else sevAt d.sev) = sevAt d.sev
        by_cases h0 : getVal node.status = ""
        · rw [jsOrS, if_pos h0, if_neg (by decide)]
        · rw [jsOrS, if_neg h0, if_neg (by simp [hc])]
  · exact absurd h (by simp)

/-- Witness for C5: `conNode` carries status `"Road Construction"` and its
emitted record has severity `medium`. -/
theorem construction_forces_medium_witness :
    jsIncludes (getVal conNode.status) "Construction" = true ∧
      conRec.severity = Severity.medium :=
  ⟨by decide,
    (construction_forces_medium conNode conDraws "12:00" conRec
      (by with_unfolding_all rfl)).1 (by decide)⟩

theorem parseXmlNode_coords {node : XmlNode} {d : XmlDraws} {now : String}
    {r : TrafficCamera} (h : parseXmlNode node d now = some r) :
    r.latitude.isSome = true ∧ r.latitude ≠ some 0 ∧
      r.longitude.isSome = true ∧ r.longitude ≠ some 0 := by
  unfold parseXmlNode at h
  split at h
  · split at h
    · exact absurd h (by simp)
    · rename_i hnz
      rw [Option.some.injEq] at h
      subst h
      push_neg at hnz
      exact ⟨rfl, by simp [hnz.1], rfl, by simp [hnz.2]⟩
  · exact absurd h (by simp)

/-- **C2 (amended)**: every record emitted by the legacy markup parser, and
every static fallback record, has a present (`isSome`) and non-zero latitude
and longitude; the ArcGIS parser does not enforce this invariant. -/
theorem emitted_coords_nonzero :
    (∀ x draws now r, r ∈ parseTrafficXml x draws now →
      r.latitude.isSome = true ∧ r.latitude ≠ some 0 ∧
        r.longitude.isSome = true ∧ r.longitude ≠ some 0) ∧
      (∀ now r, r ∈ FALLBACK_CAMERAS now →
        r.latitude.isSome = true ∧ r.latitude ≠ some 0 ∧
          r.longitude.isSome = true ∧ r.longitude ≠ some 0) := by
  constructor
  · intro x draws now r hr
    cases x with
    | parseError => simp [parseTrafficXml] at hr
    | doc nodes =>
      rw [parseTrafficXml, List.mem_filterMap] at hr
      obtain ⟨p, hp, hpr⟩ := hr
      exact parseXmlNode_coords hpr
  · intro now r hr
    simp only [FALLBACK_CAMERAS, List.mem_cons, List.not_mem_nil, or_false] at hr
    rcases hr with rfl | rfl | rfl <;> exact ⟨rfl, by norm_num, rfl, by norm_num⟩

/-- **C2 (counterexample)**: the ArcGIS parser performs no coordinate
validation: a feature whose geometry carries `[0, 0]` is emitted as a record
with latitude `0` and longitude `0`, not discarded. -/
theorem arcgis_emits_zero_coords :
    parseArcGisJson (some { features := some [zeroFeature] })
        (fun _ => { sev := 0, trd := 0, conf := 0 }) (fun _ => "00:00") =
      .ok [zeroRec] ∧ zeroRec.latitude = some 0 ∧ zeroRec.longitude = some 0 :=
  ⟨by with_unfolding_all rfl, rfl, rfl⟩

/-- Witness for the amended C2 on the emitted record of `conNode`. -/
theorem coords_nonzero_witness :
    conRec.latitude.isSome = true ∧ conRec.latitude ≠ some 0 ∧
      conRec.longitude.isSome = true ∧ conRec.longitude ≠ some 0 :=
  emitted_coords_nonzero.1 (.doc [conNode]) (fun _ => conDraws) "12:00" conRec
    (by with_unfolding_all decide)

theorem string_append_ne_empty {a b : String} (ha : a ≠ "") : a ++ b ≠ "" := by
  intro h
  cases a with
  | mk la =>
    cases b with
    | mk lb =>
      have h2 : la ++ lb = [] := congrArg String.data h
      rcases List.append_eq_nil.mp h2 with ⟨h3, -⟩
      subst h3
      exact ha rfl

theorem jsOrS_ne_empty {a b : String} (hb : b ≠ "") : jsOrS a b ≠ "" := by
  rw [jsOrS]
  split
  · exact hb
  · rename_i ha
    exact ha

theorem parseXmlNode_id_ne {node : XmlNode} {d : XmlDraws} {now : String}
    {r : TrafficCamera} (h : parseXmlNode node d now = some r) : r.id ≠ "" := by
  unfold parseXmlNode at h
  split at h
  · split at h
    · exact absurd h (by simp)
    · rw [Option.some.injEq] at h
      subst h
      exact jsOrS_ne_empty (string_append_ne_empty (by decide))
  · exact absurd h (by simp)

theorem parseArcFeature_id_ne {f : ArcFeature} {d : ArcDraws}
    {fmt : Option String → String} {r : TrafficCamera}
    (h : parseArcFeature f d fmt = .ok r) : r.id ≠ "" := by
  unfold parseArcFeature at h
  split at h
  · exact absurd h (by simp)
  · split at h
    · exact absurd h (by simp)
    · split at h
      · exact absurd h (by simp)
      · rw [Except.ok.injEq] at h
        subst h
        exact string_append_ne_empty (by decide)

theorem parseArcFeatures_id_ne {d : ℕ → ArcDraws} {fmt : Option String → String} :
    ∀ {fs : List ArcFeature} {i : ℕ} {l : List TrafficCamera},
      parseArcFeatures d fmt i fs = .ok l → ∀ r ∈ l, r.id ≠ "" := by
  intro fs
  induction fs with
  | nil =>
    intro i l h r hr
    rw [parseArcFeatures, Except.ok.injEq] at h
    subst h
    simp at hr
  | cons f rest ih =>
    intro i l h r hr
    rw [parseArcFeatures] at h
    cases hpe : parseArcFeature f (d i) fmt with
    | error e =>
      rw [hpe] at h
      have h' : (Except.error e : Except Unit (List TrafficCamera)) = Except.ok l := h
      exact absurd h' (by simp)
    | ok c =>
      rw [hpe] at h
      cases hps : parseArcFeatures d fmt (i + 1) rest with
      | error e =>
        rw [hps] at h
        have h' : (Except.error e : Except Unit (List TrafficCamera)) = Except.ok l := h
        exact absurd h' (by simp)
      | ok cs =>
        rw [hps] at h
        have h' : (Except.ok (c :: cs) : Except Unit (List TrafficCamera)) = Except.ok l := h
        rw [Except.ok.injEq] at h'
        subst h'
        rcases List.mem_cons.mp hr with rfl | hmem
        · exact parseArcFeature_id_ne hpe
        · exact ih hps r hmem

/-- **C8 (amended)**: every emitted identifier — legacy parser, ArcGIS parser
or static fallback — is a non-empty string (the legacy fallback is prefixed
`node-`, the ArcGIS one `arcgis-`); but the synthesized legacy identifiers
are unique only probabilistically, not by construction. -/
theorem ids_nonempty :
    (∀ x draws now r, r ∈ parseTrafficXml x draws now → r.id ≠ "") ∧
      (∀ g d fmt l, parseArcGisJson g d fmt = .ok l → ∀ r ∈ l, r.id ≠ "") ∧
      (∀ now r, r ∈ FALLBACK_CAMERAS now → r.id ≠ "") := by
  refine ⟨?_, ?_, ?_⟩
  · intro x draws now r hr
    cases x with
    | parseError => simp [parseTrafficXml] at hr
    | doc nodes =>
      rw [parseTrafficXml, List.mem_filterMap] at hr
      obtain ⟨p, hp, hpr⟩ := hr
      exact parseXmlNode_id_ne hpr
  · intro g d fmt l h r hr
    cases g with
    | none =>
      rw [parseArcGisJson, Except.ok.injEq] at h
      subst h
      simp at hr
    | some gj =>
      rw [parseArcGisJson] at h
      cases hf : gj.features with
      | none =>
        rw [hf, Except.ok.injEq] at h
        subst h
        simp at hr
      | some feats =>
        rw [hf] at h
        exact parseArcFeatures_id_ne h r hr
  · intro now r hr
    simp only [FALLBACK_CAMERAS, List.mem_cons, List.not_mem_nil, or_false] at hr
    rcases hr with rfl | rfl | rfl
    · show ("FB-AKL-01" : String) ≠ ""
      decide
    · show ("FB-AKL-02" : String) ≠ ""
      decide
    · show ("FB-WLG-01" : String) ≠ ""
      decide

/-- **C8 (counterexample)**: synthesized identifiers are not guaranteed
collision-free within one pass: two id-less nodes whose random draws yield
the same suffix receive the identical identifier `node-abcde`. -/
theorem synthesized_ids_can_collide :
    (parseTrafficXml (.doc [noIdNode, noIdNode]) (fun _ => conDraws) "12:00").map
        (fun c => c.id) = ["node-abcde", "node-abcde"] := by
  with_unfolding_all rfl

/-- Witness for the amended C8 on the emitted record of `conNode`. -/
theorem ids_nonempty_witness : conRec.id ≠ "" :=
  ids_nonempty.1 (.doc [conNode]) (fun _ => conDraws) "12:00" conRec
    (by with_unfolding_all decide)

/-! ## Authoritative batch fragility (C10) -/

theorem parseArcFeature_error_of_bad {f : ArcFeature} (d : ArcDraws)
    (fmt : Option String → String)
    (hbad : f.geometry = none ∨ ∃ g, f.geometry = some g ∧ g.coordinates = none) :
    parseArcFeature f d fmt = .error () := by
  obtain ⟨fp, fg⟩ := f
  rcases hbad with hg | ⟨g, hg, hc⟩
  · have hg' : fg = none := hg
    subst hg'
    rfl
  · have hg' : fg = some g := hg
    subst hg'
    obtain ⟨gc⟩ := g
    have hc' : gc = none := hc
    subst hc'
    cases fp with
    | none => rfl
    | some props => rfl

theorem parseArcFeatures_error {d : ℕ → ArcDraws} {fmt : Option String → String}
    {f : ArcFeature}
    (hbad : f.geometry = none ∨ ∃ g, f.geometry = some g ∧ g.coordinates = none) :
    ∀ {fs : List ArcFeature}, f ∈ fs → ∀ i, parseArcFeatures d fmt i fs = .error () := by
  intro fs
  induction fs with
  | nil =>
    intro h
    simp at h
  | cons a rest ih =>
    intro hmem i
    rw [parseArcFeatures]
    rcases List.mem_cons.mp hmem with rfl | hmem'
    · rw [parseArcFeature_error_of_bad (d i) fmt hbad]
    · cases hpe : parseArcFeature a (d i) fmt with
      | error e => rfl
      | ok c => rw [ih hmem' (i + 1)]

/-- **C10**: a feature whose geometry (or coordinates array) is absent makes
the whole authoritative parse throw — `parseArcGisJson` returns an error, the
orchestrator's catch discards the entire batch including every valid feature,
and the result is exactly what the relay phase produces: no partial
authoritative result is ever returned. -/
theorem arc_bad_geometry_discards_batch (env : Env) (res : ArcResponse)
    (gj : GeoJson) (feats : List ArcFeature) (f : ArcFeature)
    (h1 : env.arc = .ok res) (h2 : res.ok = true)
    (h3 : res.json = .ok (some gj)) (h4 : gj.features = some feats)
    (h5 : f ∈ feats)
    (h6 : f.geometry = none ∨ ∃ g, f.geometry = some g ∧ g.coordinates = none) :
    parseArcGisJson (some gj) env.arcDraws env.fmtArcTime = .error () ∧
      fetchLiveCameras env = relayFromIndex env 0 PROXIES := by
  have herr : parseArcGisJson (some gj) env.arcDraws env.fmtArcTime = .error () := by
    rw [parseArcGisJson, h4]
    exact parseArcFeatures_error h6 h5 0
  refine ⟨herr, ?_⟩
  have hnone : arcAttempt env = none := by
    unfold arcAttempt
    rw [h1]
    simp [h2, h3, herr]
  rw [fetchLiveCameras, hnone]

/-- Witness for C10: a one-feature batch whose only feature lacks geometry. -/
theorem arc_bad_geometry_witness :
    parseArcGisJson (some badGeo) badArcEnv.arcDraws badArcEnv.fmtArcTime = .error () ∧
      fetchLiveCameras badArcEnv = relayFromIndex badArcEnv 0 PROXIES :=
  arc_bad_geometry_discards_batch badArcEnv { ok := true, json := .ok (some badGeo) }
    badGeo [badFeature] badFeature rfl rfl rfl rfl (List.mem_singleton.mpr rfl)
    (Or.inl rfl)

/-! ## Coordinate normalizer (C9) -/

/-- **C9**: `mercatorToLatLng` inverts the forward spherical-Mercator
projection with Earth radius 6378137 m exactly over the real numbers (hence
within floating-point tolerance in the JS double semantics), for every
geographic point with latitude strictly between the poles. -/
theorem mercator_roundtrip (lat lng : ℝ) (h1 : -90 < lat) (h2 : lat < 90) :
    mercatorToLatLng (mercatorForward lat lng).1 (mercatorForward lat lng).2 =
      (lat, lng) := by
  have hpi : (0 : ℝ) < Real.pi := Real.pi_pos
  have hR : (6378137 : ℝ) ≠ 0 := by norm_num
  have hth1 : 0 < Real.pi / 4 + lat * Real.pi / 360 := by
    nlinarith [mul_pos (show (0 : ℝ) < lat + 90 by linarith) hpi]
  have hth2 : Real.pi / 4 + lat * Real.pi / 360 < Real.pi / 2 := by
    nlinarith [mul_pos (show (0 : ℝ) < 90 - lat by linarith) hpi]
  have htan : 0 < Real.tan (Real.pi / 4 + lat * Real.pi / 360) :=
    Real.tan_pos_of_pos_of_lt_pi_div_two hth1 hth2
  unfold mercatorForward mercatorToLatLng
  dsimp only
  rw [Prod.mk.injEq]
  constructor
  · rw [mul_div_cancel_left₀ _ hR, Real.exp_log htan,
      Real.arctan_tan (by linarith) hth2]
    field_simp
    ring
  · rw [mul_div_cancel_left₀ _ hR]
    field_simp

/-- Witness for C9 at the concrete point latitude 0, longitude 45. -/
theorem mercator_roundtrip_witness :
    (-90 : ℝ) < 0 ∧ (0 : ℝ) < 90 ∧
      mercatorToLatLng (mercatorForward 0 45).1 (mercatorForward 0 45).2 =
        ((0 : ℝ), (45 : ℝ)) :=
  ⟨by norm_num, by norm_num, mercator_roundtrip 0 45 (by norm_num) (by norm_num)⟩
